import Mathlib

/-!
Verification of the kewkew disk-backed job queue (src/index.js) against its
natural-language specification.  The embedding below translates the queue
controller, worker, retry and finalization policy, recovery loader and
shutdown drain into pure Lean definitions.  Disk outcomes (persist, load)
are passed in as parameters, timestamps are naturals in milliseconds, and
side effects (events triggered, files renamed or destroyed, callbacks) are
reified into explicit outcome records and action traces.
-/

namespace KewKewSpec

/-- An error value carried on the error channels (persist, load, worker). -/
structure Err where
  msg : String
  deriving Repr, DecidableEq

/-- Per-job scheduling metadata, the options object stored on a job.
scheduled is the dueAt timestamp in milliseconds. -/
structure JobOptions where
  scheduled : Nat
  prettifyJSON : Bool
  deriving Repr, DecidableEq

/-- A Job Record.  The Job class itself lives in lib/job.js which is not
under src/; its fields are modelled from the spec data model (section 3)
and from how src/index.js reads and writes them: id, opaque payload,
options.scheduled, attempts, processing. -/
structure Job where
  id : String
  payload : Nat
  options : JobOptions
  attempts : Nat
  processing : Bool
  deriving Repr, DecidableEq

/-- Queue-level configuration, src/index.js lines 24-38. -/
structure KewKewOptions where
  autoStart : Bool
  concurrency : Nat
  reloadConcurrency : Nat
  delayEarlyJob : Nat
  retryFailedJobs : Bool
  retryFailedJobDelay : Nat
  destroySuccessfulJobs : Bool
  destroyFailedJobs : Bool
  moveSuccessfulJobs : Bool
  moveFailedJobs : Bool
  maxJobFailures : Int
  prettifyJSON : Bool
  deriving Repr, DecidableEq

/-- The defaults set in the KewKew constructor, src/index.js lines 24-38. -/
def defaultOptions : KewKewOptions :=
  { autoStart := true
  , concurrency := 4
  , reloadConcurrency := 16
  , delayEarlyJob := 1000
  , retryFailedJobs := false
  , retryFailedJobDelay := 15000
  , destroySuccessfulJobs := false
  , destroyFailedJobs := false
  , moveSuccessfulJobs := true
  , moveFailedJobs := true
  , maxJobFailures := 3
  , prettifyJSON := false }

/-- Caller-supplied option overrides (absent field = not supplied). -/
structure UserOptions where
  autoStart : Option Bool
  concurrency : Option Nat
  reloadConcurrency : Option Nat
  delayEarlyJob : Option Nat
  retryFailedJobs : Option Bool
  retryFailedJobDelay : Option Nat
  destroySuccessfulJobs : Option Bool
  destroyFailedJobs : Option Bool
  moveSuccessfulJobs : Option Bool
  moveFailedJobs : Option Bool
  maxJobFailures : Option Int
  prettifyJSON : Option Bool
  deriving Repr, DecidableEq

/-- No overrides supplied (the options argument omitted). -/
def noUserOptions : UserOptions :=
  { autoStart := none, concurrency := none, reloadConcurrency := none
  , delayEarlyJob := none, retryFailedJobs := none, retryFailedJobDelay := none
  , destroySuccessfulJobs := none, destroyFailedJobs := none
  , moveSuccessfulJobs := none, moveFailedJobs := none
  , maxJobFailures := none, prettifyJSON := none }

/-- The constructor mutation at src/index.js lines 39-44: a caller who sets
destroySuccessfulJobs (resp. destroyFailedJobs) to true has the
corresponding move option forced to false before the merge. -/
def destroyOverrides (u : UserOptions) : UserOptions :=
  let u1 := if u.destroySuccessfulJobs = some true
            then { u with moveSuccessfulJobs := some false } else u
  if u1.destroyFailedJobs = some true
  then { u1 with moveFailedJobs := some false } else u1

/-- Modelled from the spec: helpers.applyOptions (lib/helpers.js, not under
src/) copies each caller-supplied option over the defaults (spec section 6,
recognized options and effects). -/
def applyOptions (d : KewKewOptions) (u : UserOptions) : KewKewOptions :=
  { autoStart := u.autoStart.getD d.autoStart
  , concurrency := u.concurrency.getD d.concurrency
  , reloadConcurrency := u.reloadConcurrency.getD d.reloadConcurrency
  , delayEarlyJob := u.delayEarlyJob.getD d.delayEarlyJob
  , retryFailedJobs := u.retryFailedJobs.getD d.retryFailedJobs
  , retryFailedJobDelay := u.retryFailedJobDelay.getD d.retryFailedJobDelay
  , destroySuccessfulJobs := u.destroySuccessfulJobs.getD d.destroySuccessfulJobs
  , destroyFailedJobs := u.destroyFailedJobs.getD d.destroyFailedJobs
  , moveSuccessfulJobs := u.moveSuccessfulJobs.getD d.moveSuccessfulJobs
  , moveFailedJobs := u.moveFailedJobs.getD d.moveFailedJobs
  , maxJobFailures := u.maxJobFailures.getD d.maxJobFailures
  , prettifyJSON := u.prettifyJSON.getD d.prettifyJSON }

/-- Option processing of the KewKew constructor, src/index.js lines 24-45. -/
def mkOptions (u : UserOptions) : KewKewOptions :=
  applyOptions defaultOptions (destroyOverrides u)

/-- KewKew.prototype.enqueueJob is the private method at src/index.js
lines 209-213: it sets processing to false and then pushes the job into
the priority queue with priority job.options.scheduled. -/
def enqueueJob (j : Job) : Job :=
  { j with processing := false }

/-- One observable action of the dispatch worker (src/index.js lines
100-136), in program order: a call to persist with the record handed to it,
the error event triggered when persist fails, the invocation of the
caller-supplied execution function, the delayed re-enqueue of an early job
(with the record as it is re-inserted), and the single completion callback
with its (error, record) arguments. -/
inductive WAction where
  | persistRec (j : Job)
  | errEvent
  | invokeWorker (j : Job)
  | requeueAfter (delayMs : Nat) (j : Job)
  | completeCb (err : Option Err) (rec : Option Job)
  deriving Repr, DecidableEq

/-- KewKew.prototype worker body, src/index.js lines 100-136, as the trace
of actions it performs.  timestamp is new Date().getTime() at entry;
persistResult is the outcome of job.persist (none = success); workerErr is
the outcome the caller-supplied execution function reports (thrown or
called back).  The record is marked processing = true; if its scheduled
time has arrived, attempts is incremented, the record is persisted, and
only on persist success is the execution function invoked; otherwise the
job is re-enqueued (processing reset to false by enqueueJob) after
delayEarlyJob and the completion fires with (null, null). -/
def worker (opts : KewKewOptions) (timestamp : Nat) (job : Job)
    (persistResult : Option Err) (workerErr : Option Err) : List WAction :=
  let j := { job with processing := true }
  if j.options.scheduled ≤ timestamp then
    let j2 := { j with attempts := j.attempts + 1 }
    match persistResult with
    | some e =>
        [WAction.persistRec j2, WAction.errEvent,
         WAction.completeCb (some e) (some j2)]
    | none =>
        [WAction.persistRec j2, WAction.invokeWorker j2,
         WAction.completeCb workerErr (some j2)]
  else
    [WAction.requeueAfter opts.delayEarlyJob (enqueueJob j),
     WAction.completeCb none none]

/-- Terminal handling of a backing file chosen by the finalization policy. -/
inductive FinalAction where
  | moveFailed (target : String)
  | destroyFailed
  | moveSuccess (target : String)
  | destroySuccess
  deriving Repr, DecidableEq

/-- Outcome of KewKew.prototype onJobComplete: the events it triggers
directly (in order), whether it calls retry on the job, the terminal file
action it starts, and whether it would crash dereferencing a null job. -/
structure CompleteOutcome where
  events : List String
  retried : Bool
  finalize : Option FinalAction
  crashed : Bool
  deriving Repr, DecidableEq

/-- KewKew.prototype onJobComplete, src/index.js lines 162-207.  On error:
job error events fire, then the job is retried when retryFailedJobs is set
and the budget allows (maxJobFailures at most 0, or attempts below it);
otherwise, still only inside the retryFailedJobs branch, the fail event
fires and the file is moved to a failed marker or destroyed.  On success
with a record: the complete event and the success-file handling.  A null
record without error is a no-op. -/
def onJobComplete (opts : KewKewOptions) (err : Option Err) (job : Option Job) :
    CompleteOutcome :=
  match err, job with
  | some _, some j =>
      if opts.retryFailedJobs then
        if opts.maxJobFailures ≤ 0 ∨ (j.attempts : Int) < opts.maxJobFailures then
          { events := ["job:error", "error"], retried := true
          , finalize := none, crashed := false }
        else if opts.moveFailedJobs then
          { events := ["job:error", "error", "job:fail"], retried := false
          , finalize := some (FinalAction.moveFailed (".failed-" ++ j.id))
          , crashed := false }
        else if opts.destroyFailedJobs then
          { events := ["job:error", "error", "job:fail"], retried := false
          , finalize := some FinalAction.destroyFailed, crashed := false }
        else
          { events := ["job:error", "error", "job:fail"], retried := false
          , finalize := none, crashed := false }
      else
        { events := ["job:error", "error"], retried := false
        , finalize := none, crashed := false }
  | some _, none =>
      { events := ["job:error", "error"], retried := false
      , finalize := none, crashed := opts.retryFailedJobs }
  | none, some j =>
      if opts.moveSuccessfulJobs then
        { events := ["job:complete"], retried := false
        , finalize := some (FinalAction.moveSuccess (".success-" ++ j.id))
        , crashed := false }
      else if opts.destroySuccessfulJobs then
        { events := ["job:complete"], retried := false
        , finalize := some FinalAction.destroySuccess, crashed := false }
      else
        { events := ["job:complete"], retried := false
        , finalize := none, crashed := false }
  | none, none =>
      { events := [], retried := false, finalize := none, crashed := false }

/-- Outcome of KewKew.prototype.retry on the processing = true branch:
the record handed to persist (scheduled already advanced), the record
re-inserted into the queue (when persist succeeded), the events triggered,
and the error reported to the callback. -/
structure RetryOutcome where
  persisted : Job
  enqueued : Option Job
  events : List String
  err : Option Err
  deriving Repr, DecidableEq

/-- KewKew.prototype.retry, src/index.js lines 288-309.  Only a record with
processing = true may be retried; its scheduled time is advanced by
retryFailedJobDelay (added to the previous scheduled value; the clock is
not read), the record is persisted, and on persist success it is
re-enqueued.  A record with processing = false makes retry throw. -/
def retry (opts : KewKewOptions) (job : Job) (persistResult : Option Err) :
    Except String RetryOutcome :=
  if job.processing then
    let j2 := { job with options :=
      { job.options with
          scheduled := job.options.scheduled + opts.retryFailedJobDelay } }
    match persistResult with
    | some e =>
        Except.ok { persisted := j2, enqueued := none
                  , events := ["error", "job:error", "error"], err := some e }
    | none =>
        Except.ok { persisted := j2, enqueued := some (enqueueJob j2)
                  , events := ["job:retry", "job:queue"], err := none }
  else
    Except.error "Cannot retry job because it is unprocessed"

/-- True when a retry call returned normally rather than throwing. -/
def retryRan (r : Except String RetryOutcome) : Bool :=
  match r with
  | Except.ok _ => true
  | Except.error _ => false

/-- The scheduled time of the record a retry call persisted, when it ran. -/
def retriedScheduled (r : Except String RetryOutcome) : Option Nat :=
  match r with
  | Except.ok out => some out.persisted.options.scheduled
  | Except.error _ => none

/-- JavaScript or-defaulting of options.scheduled at src/index.js line 269:
a missing or falsy (zero) value is replaced by the default. -/
def jsOr (v : Option Nat) (dflt : Nat) : Nat :=
  match v with
  | none => dflt
  | some s => if s = 0 then dflt else s

/-- Outcome of KewKew.prototype.push: the record built, the record inserted
into the queue (when persist succeeded), the events triggered, and the
error reported to the callback. -/
structure PushOutcome where
  job : Job
  enqueued : Option Job
  events : List String
  err : Option Err
  deriving Repr, DecidableEq

/-- KewKew.prototype.push, src/index.js lines 259-282.  now is
new Date().getTime() at the call; scheduledOpt the caller-supplied
options.scheduled.  The record defaults its scheduled time to now plus
10000 ms when none (or a falsy value) is supplied, is persisted, and on
persist success is enqueued with a queue event.  The Job constructor
(lib/job.js, not under src/) is modelled from the spec: attempts starts at
0 and processing at false (spec section 3). -/
def push (opts : KewKewOptions) (now : Nat) (payload : Nat) (id : String)
    (scheduledOpt : Option Nat) (persistResult : Option Err) : PushOutcome :=
  let sched := jsOr scheduledOpt (now + 10000)
  let job : Job :=
    { id := id, payload := payload
    , options := { scheduled := sched, prettifyJSON := opts.prettifyJSON }
    , attempts := 0, processing := false }
  match persistResult with
  | some e => { job := job, enqueued := none, events := ["error"], err := some e }
  | none => { job := job, enqueued := some (enqueueJob job)
            , events := ["job:queue"], err := none }

/-- Whether a directory entry is a hidden (dot) file. -/
def isDotFile (f : String) : Bool :=
  match f.data with
  | [] => false
  | c :: _ => c = '.'

/-- Modelled from the spec: helpers.filterDotFiles (lib/helpers.js, not
under src/); spec section 4.1: directory entries beginning with the
hidden-file marker are never treated as active job records. -/
def filterDotFiles (files : List String) : List String :=
  files.filter (fun f => !(isDotFile f))

/-- Fail-fast collection of the per-file load tasks handed to
async.parallelLimit in KewKew.prototype reload (src/index.js lines 89-96):
the final callback receives either every loaded record in listing order or
the first error, and on error no record list is produced. -/
def asyncParallel (load : String → Except Err Job) :
    List String → Except Err (List Job)
  | [] => Except.ok []
  | f :: fs =>
      match load f with
      | Except.error e => Except.error e
      | Except.ok j =>
          match asyncParallel load fs with
          | Except.error e => Except.error e
          | Except.ok js => Except.ok (j :: js)

/-- Outcome of startup recovery: the records enqueued into the scheduler,
the error surfaced on the error channel (if any), and whether the ready
event fired. -/
structure ReloadOutcome where
  enqueued : List Job
  errorEvent : Option Err
  ready : Bool
  deriving Repr, DecidableEq

/-- KewKew.prototype init composed with reload, src/index.js lines 52-63
and 85-98.  dirListing is the fs.readdir outcome; load the Job.fromDisk
outcome per file.  Any error (listing the directory, or loading any
non-hidden file) aborts: nothing is enqueued, the error event fires, and
ready does not fire.  On success every loaded record is enqueued through
enqueueJob (processing = false). -/
def initReload (dirListing : Except Err (List String))
    (load : String → Except Err Job) : ReloadOutcome :=
  match dirListing with
  | Except.error e => { enqueued := [], errorEvent := some e, ready := false }
  | Except.ok files =>
      match asyncParallel load (filterDotFiles files) with
      | Except.error e => { enqueued := [], errorEvent := some e, ready := false }
      | Except.ok jobs =>
          { enqueued := jobs.map enqueueJob, errorEvent := none, ready := true }

/-- State of the async priority queue as seen by shutdown: the pending
records, the number of in-flight executions (queue.running()), and the
paused flag. -/
structure QState where
  pending : List Job
  running : Nat
  paused : Bool
  deriving Repr, DecidableEq

/-- The first statement of KewKew.prototype.shutdown, src/index.js line
233: the queue is paused; pending records are untouched. -/
def shutdownStart (s : QState) : QState :=
  { s with paused := true }

/-- Whether the queue may dispatch a pending record: not paused, a free
slot under the concurrency bound, and a pending record available. -/
def canDispatch (c : Nat) (s : QState) : Bool :=
  !s.paused && decide (s.running < c) && !s.pending.isEmpty

/-- The async.whilst test in shutdown (src/index.js lines 234-242),
negated: the drain loop completes exactly when running() is 0. -/
def shutdownCanResolve (s : QState) : Bool :=
  s.running == 0

/-- Queue transitions while shutdown drains: a dispatch (possible only
when not paused, below the concurrency bound, with a pending record), the
completion of an in-flight execution, and a tick of the 250 ms drain poll
(which changes nothing).  No transition resumes a paused queue. -/
inductive QStep (c : Nat) : QState → QState → Prop where
  | dispatch (s : QState) (j : Job) (rest : List Job) :
      s.paused = false → s.running < c → s.pending = j :: rest →
      QStep c s { s with pending := rest, running := s.running + 1 }
  | complete (s : QState) (n : Nat) :
      s.running = n + 1 → QStep c s { s with running := n }
  | poll (s : QState) : QStep c s s

/-- A fixed sample record used to instantiate the theorems below. -/
def sampleJob : Job :=
  { id := "42", payload := 7
  , options := { scheduled := 50, prettifyJSON := false }
  , attempts := 0, processing := false }

/-- A load function whose every file is corrupt. -/
def badLoad : String → Except Err Job :=
  fun _ => Except.error { msg := "bad JSON" }

/-- Claim C1: for every job whose due time has arrived at dispatch, the
worker marks the record processing = true, increments attempts by exactly
one, and persists the updated record to disk before invoking the
caller-supplied execution function; if the persist fails, the execution
function is not invoked and the completion is reported with that error. -/
theorem worker_due_persist_before_invoke (opts : KewKewOptions) (ts : Nat)
    (job : Job) (pr we : Option Err) (h : job.options.scheduled ≤ ts) :
    ({ job with processing := true, attempts := job.attempts + 1 } : Job).processing
      = true ∧
    ({ job with processing := true, attempts := job.attempts + 1 } : Job).attempts
      = job.attempts + 1 ∧
    worker opts ts job pr we =
      (match pr with
       | some e =>
           [WAction.persistRec
              { job with processing := true, attempts := job.attempts + 1 },
            WAction.errEvent,
            WAction.completeCb (some e)
              (some { job with processing := true, attempts := job.attempts + 1 })]
       | none =>
           [WAction.persistRec
              { job with processing := true, attempts := job.attempts + 1 },
            WAction.invokeWorker
              { job with processing := true, attempts := job.attempts + 1 },
            WAction.completeCb we
              (some { job with processing := true, attempts := job.attempts + 1 })]) ∧
    (∀ e j2, pr = some e → WAction.invokeWorker j2 ∉ worker opts ts job pr we) := by
  refine ⟨rfl, rfl, ?_, ?_⟩
  · cases pr <;> simp [worker, h]
  · intro e j2 hpr
    subst hpr
    simp [worker, h]

/-- Witness for C1 at a concrete input: sampleJob is due at time 100, its
persist fails, so the trace is persist, error event, completion with the
persist error, and the execution function is never invoked. -/
theorem worker_due_persist_before_invoke_witness :
    sampleJob.options.scheduled ≤ 100 ∧
    worker defaultOptions 100 sampleJob (some { msg := "disk full" }) none =
      [WAction.persistRec { sampleJob with processing := true, attempts := 1 },
       WAction.errEvent,
       WAction.completeCb (some { msg := "disk full" })
         (some { sampleJob with processing := true, attempts := 1 })] :=
  ⟨by decide,
   (worker_due_persist_before_invoke defaultOptions 100 sampleJob
      (some { msg := "disk full" }) none (by decide)).2.2.1⟩

/-- Claim C2: a job popped before its due time is not executed: the trace
holds no persist and no invocation, attempts and the scheduled time are
unchanged on the record re-enqueued after delayEarlyJob, and the resulting
(null, null) completion triggers no event, no retry and no finalization. -/
theorem worker_early_requeue (opts : KewKewOptions) (ts : Nat) (job : Job)
    (pr we : Option Err) (h : ts < job.options.scheduled) :
    worker opts ts job pr we =
      [WAction.requeueAfter opts.delayEarlyJob { job with processing := false },
       WAction.completeCb none none] ∧
    ({ job with processing := false } : Job).options.scheduled
      = job.options.scheduled ∧
    ({ job with processing := false } : Job).attempts = job.attempts ∧
    (∀ j2, WAction.invokeWorker j2 ∉ worker opts ts job pr we) ∧
    (∀ j2, WAction.persistRec j2 ∉ worker opts ts job pr we) ∧
    onJobComplete opts none none =
      { events := [], retried := false, finalize := none, crashed := false } := by
  have hn : ¬ job.options.scheduled ≤ ts := by omega
  refine ⟨?_, rfl, rfl, ?_, ?_, rfl⟩
  · simp [worker, hn, enqueueJob]
  · intro j2
    simp [worker, hn]
  · intro j2
    simp [worker, hn]

/-- Witness for C2 at a concrete input: sampleJob (due at 50) popped at
time 10 is re-enqueued unchanged after the default 1000 ms backoff and the
completion is the (null, null) no-op. -/
theorem worker_early_requeue_witness :
    (10 : Nat) < sampleJob.options.scheduled ∧
    worker defaultOptions 10 sampleJob none none =
      [WAction.requeueAfter 1000 { sampleJob with processing := false },
       WAction.completeCb none none] :=
  ⟨by decide,
   (worker_early_requeue defaultOptions 10 sampleJob none none (by decide)).1⟩

/-- Claim C3: an errored execution is retried if and only if
retryFailedJobs is set and (maxJobFailures at most 0, or attempts below
maxJobFailures); with retryFailedJobs and maxJobFailures = 3 a job is
retried on its first and second failures and finalized as failed on its
third, and with maxJobFailures at most 0 it is retried on every failure. -/
theorem retry_policy_iff (opts : KewKewOptions) (e : Err) (j : Job) :
    ((onJobComplete opts (some e) (some j)).retried = true ↔
      (opts.retryFailedJobs = true ∧
        (opts.maxJobFailures ≤ 0 ∨ (j.attempts : Int) < opts.maxJobFailures))) ∧
    (opts.retryFailedJobs = true → opts.maxJobFailures = 3 →
      ((j.attempts = 1 ∨ j.attempts = 2) →
          (onJobComplete opts (some e) (some j)).retried = true) ∧
      (j.attempts = 3 →
          (onJobComplete opts (some e) (some j)).retried = false ∧
          "job:fail" ∈ (onJobComplete opts (some e) (some j)).events)) ∧
    (opts.retryFailedJobs = true → opts.maxJobFailures ≤ 0 →
      (onJobComplete opts (some e) (some j)).retried = true) := by
  refine ⟨?_, ?_, ?_⟩
  · by_cases hr : opts.retryFailedJobs
    · by_cases hb : opts.maxJobFailures ≤ 0 ∨ (j.attempts : Int) < opts.maxJobFailures
      · simp [onJobComplete, hr, hb]
      · by_cases hm : opts.moveFailedJobs <;>
          by_cases hd : opts.destroyFailedJobs <;>
            simp [onJobComplete, hr, hb, hm, hd]
    · simp [onJobComplete, hr]
  · intro hr h3
    constructor
    · intro ha
      have hb : opts.maxJobFailures ≤ 0 ∨ (j.attempts : Int) < opts.maxJobFailures := by
        rcases ha with h1 | h2 <;> right <;> omega
      simp [onJobComplete, hr, hb]
    · intro ha
      have hb : ¬ (opts.maxJobFailures ≤ 0 ∨ (j.attempts : Int) < opts.maxJobFailures) := by
        push_neg
        constructor <;> omega
      by_cases hm : opts.moveFailedJobs <;>
        by_cases hd : opts.destroyFailedJobs <;>
          simp [onJobComplete, hr, hb, hm, hd]
  · intro hr hb
    simp [onJobComplete, hr, Or.inl hb]

/-- Witness for C3 at concrete inputs: with retries enabled and the
default budget of 3, a record at attempts = 3 is not retried and the fail
event fires, while a record at attempts = 2 is retried. -/
theorem retry_policy_iff_witness :
    (onJobComplete { defaultOptions with retryFailedJobs := true }
        (some { msg := "boom" })
        (some { sampleJob with processing := true, attempts := 3 })).retried
      = false ∧
    (onJobComplete { defaultOptions with retryFailedJobs := true }
        (some { msg := "boom" })
        (some { sampleJob with processing := true, attempts := 2 })).retried
      = true :=
  ⟨(((retry_policy_iff { defaultOptions with retryFailedJobs := true }
        { msg := "boom" }
        { sampleJob with processing := true, attempts := 3 }).2.1 rfl rfl).2
      rfl).1,
   ((retry_policy_iff { defaultOptions with retryFailedJobs := true }
        { msg := "boom" }
        { sampleJob with processing := true, attempts := 2 }).2.1 rfl rfl).1
     (Or.inr rfl)⟩

/-- Counterexample for C4 as stated: retry never reads the clock, so at a
call made at time 100 on a record scheduled at 50 with the default 15000 ms
retry delay, the persisted record is scheduled at 50 + 15000 = 15050, not
at now + 15000 = 15100. -/
theorem retry_not_now_plus_delay :
    retriedScheduled
        (retry defaultOptions { sampleJob with processing := true } none)
      = some 15050 ∧
    (15050 : Nat) ≠ 100 + 15000 := by
  constructor
  · rfl
  · decide

/-- Claim C4 amended: for every retry of an in-flight record, the record's
scheduled time is advanced by retryFailedJobDelay from its previous value
(not recomputed from the clock), the updated record is persisted, and on
persist success it is re-inserted into the scheduler with its id and
attempts counter unchanged and processing reset to false. -/
theorem retry_advances_dueAt (opts : KewKewOptions) (job : Job)
    (h : job.processing = true) :
    retry opts job none =
      Except.ok
        { persisted :=
            { job with options :=
                { job.options with
                    scheduled := job.options.scheduled + opts.retryFailedJobDelay } }
        , enqueued :=
            some (enqueueJob
              { job with options :=
                  { job.options with
                      scheduled := job.options.scheduled + opts.retryFailedJobDelay } })
        , events := ["job:retry", "job:queue"], err := none } ∧
    (∀ out, retry opts job none = Except.ok out →
      out.persisted.id = job.id ∧
      out.persisted.attempts = job.attempts ∧
      out.persisted.options.scheduled
        = job.options.scheduled + opts.retryFailedJobDelay ∧
      out.enqueued = some (enqueueJob out.persisted)) := by
  have h1 : retry opts job none =
      Except.ok
        { persisted :=
            { job with options :=
                { job.options with
                    scheduled := job.options.scheduled + opts.retryFailedJobDelay } }
        , enqueued :=
            some (enqueueJob
              { job with options :=
                  { job.options with
                      scheduled := job.options.scheduled + opts.retryFailedJobDelay } })
        , events := ["job:retry", "job:queue"], err := none } := by
    simp [retry, h]
  refine ⟨h1, ?_⟩
  intro out hout
  rw [h1] at hout
  cases hout
  exact ⟨rfl, rfl, rfl, rfl⟩

/-- Witness for the amended C4 at a concrete input: retrying the in-flight
sampleJob (scheduled 50) under default options persists it rescheduled to
15050 and re-enqueues it with processing reset to false. -/
theorem retry_advances_dueAt_witness :
    retry defaultOptions { sampleJob with processing := true } none =
      Except.ok
        { persisted :=
            { sampleJob with
                processing := true
                options := { scheduled := 15050, prettifyJSON := false } }
        , enqueued :=
            some { sampleJob with
                     processing := false
                     options := { scheduled := 15050, prettifyJSON := false } }
        , events := ["job:retry", "job:queue"], err := none } :=
  (retry_advances_dueAt defaultOptions
    { sampleJob with processing := true } rfl).1

/-- Counterexample for C5 as stated: under the default options
retryFailedJobs is false, so an errored execution is not retried, yet the
completion handler starts no finalization at all — the backing file is
neither renamed to a failed marker nor deleted (the rename and destroy
code sits inside the retryFailedJobs branch of src/index.js lines
167-188). -/
theorem error_without_retry_no_finalize :
    defaultOptions.retryFailedJobs = false ∧
    defaultOptions.moveFailedJobs = true ∧
    (onJobComplete defaultOptions (some { msg := "boom" })
        (some { sampleJob with processing := true, attempts := 5 })).retried
      = false ∧
    (onJobComplete defaultOptions (some { msg := "boom" })
        (some { sampleJob with processing := true, attempts := 5 })).finalize
      = none ∧
    (onJobComplete defaultOptions (some { msg := "boom" })
        (some { sampleJob with processing := true, attempts := 5 })).events
      = ["job:error", "error"] := by
  refine ⟨rfl, rfl, rfl, rfl, rfl⟩

/-- Claim C5 amended: an errored execution whose retry budget is exhausted
while retryFailedJobs is enabled is treated as permanently failed: the
fail event fires, the backing file is renamed to the failed-marker name
when moveFailedJobs is set, and is deleted when destroyFailedJobs is set
without moveFailedJobs — which is exactly how configuring destroy-failed
leaves the constructor, since it forces moveFailedJobs off.  With
retryFailedJobs disabled no finalization occurs. -/
theorem failed_finalize_policy (opts : KewKewOptions) (e : Err) (j : Job)
    (hr : opts.retryFailedJobs = true)
    (hb : ¬ (opts.maxJobFailures ≤ 0 ∨ (j.attempts : Int) < opts.maxJobFailures)) :
    (onJobComplete opts (some e) (some j)).retried = false ∧
    "job:fail" ∈ (onJobComplete opts (some e) (some j)).events ∧
    (opts.moveFailedJobs = true →
      (onJobComplete opts (some e) (some j)).finalize
        = some (FinalAction.moveFailed (".failed-" ++ j.id))) ∧
    (opts.moveFailedJobs = false → opts.destroyFailedJobs = true →
      (onJobComplete opts (some e) (some j)).finalize
        = some FinalAction.destroyFailed) ∧
    (∀ u : UserOptions, u.destroyFailedJobs = some true →
      (mkOptions u).moveFailedJobs = false) ∧
    (∀ opts2 : KewKewOptions, opts2.retryFailedJobs = false →
      (onJobComplete opts2 (some e) (some j)).finalize = none) := by
  refine ⟨?_, ?_, ?_, ?_, ?_, ?_⟩
  · by_cases hm : opts.moveFailedJobs <;>
      by_cases hd : opts.destroyFailedJobs <;>
        simp [onJobComplete, hr, hb, hm, hd]
  · by_cases hm : opts.moveFailedJobs <;>
      by_cases hd : opts.destroyFailedJobs <;>
        simp [onJobComplete, hr, hb, hm, hd]
  · intro hm
    simp [onJobComplete, hr, hb, hm]
  · intro hm hd
    simp [onJobComplete, hr, hb, hm, hd]
  · intro u hu
    by_cases hs : u.destroySuccessfulJobs = some true <;>
      simp [mkOptions, applyOptions, destroyOverrides, hs, hu]
  · intro opts2 hr2
    simp [onJobComplete, hr2]

/-- Witness for the amended C5 at a concrete input: with retries enabled,
the default budget of 3 exhausted at attempts = 3 and moveFailedJobs set,
the record is not retried and its file is renamed to the failed marker. -/
theorem failed_finalize_policy_witness :
    (onJobComplete { defaultOptions with retryFailedJobs := true }
        (some { msg := "boom" })
        (some { sampleJob with processing := true, attempts := 3 })).retried
      = false ∧
    (onJobComplete { defaultOptions with retryFailedJobs := true }
        (some { msg := "boom" })
        (some { sampleJob with processing := true, attempts := 3 })).finalize
      = some (FinalAction.moveFailed ".failed-42") :=
  ⟨(failed_finalize_policy { defaultOptions with retryFailedJobs := true }
      { msg := "boom" } { sampleJob with processing := true, attempts := 3 }
      rfl (by decide)).1,
   (failed_finalize_policy { defaultOptions with retryFailedJobs := true }
      { msg := "boom" } { sampleJob with processing := true, attempts := 3 }
      rfl (by decide)).2.2.1 rfl⟩

/-- If any file in the list fails to load, the fail-fast collection of
load tasks reports an error. -/
theorem asyncParallel_error {load : String → Except Err Job}
    {l : List String} {f : String} {e : Err}
    (hmem : f ∈ l) (he : load f = Except.error e) :
    ∃ e2, asyncParallel load l = Except.error e2 := by
  induction l with
  | nil => cases hmem
  | cons a as ih =>
      cases hmem with
      | head => exact ⟨e, by simp [asyncParallel, he]⟩
      | tail b hmem2 =>
          rcases ih hmem2 with ⟨e2, h2⟩
          cases hfa : load a with
          | error e3 => exact ⟨e3, by simp [asyncParallel, hfa]⟩
          | ok j => exact ⟨e2, by simp [asyncParallel, hfa, h2]⟩

/-- Claim C6: if any non-hidden file in the queue directory fails to
deserialize, the entire recovery aborts: no record at all is enqueued into
the scheduler, the ready event does not fire, and an error is surfaced on
the error channel. -/
theorem reload_fail_fast (files : List String)
    (load : String → Except Err Job) (f : String) (e : Err)
    (hmem : f ∈ filterDotFiles files) (he : load f = Except.error e) :
    (initReload (Except.ok files) load).enqueued = [] ∧
    (initReload (Except.ok files) load).ready = false ∧
    (initReload (Except.ok files) load).errorEvent ≠ none := by
  rcases asyncParallel_error hmem he with ⟨e2, h2⟩
  refine ⟨?_, ?_, ?_⟩ <;> simp [initReload, h2]

/-- Witness for C6 at a concrete input: a directory holding the one
non-hidden file named corrupt whose load fails aborts recovery with
nothing enqueued, no ready event, and an error surfaced. -/
theorem reload_fail_fast_witness :
    (initReload (Except.ok ["corrupt"]) badLoad).enqueued = [] ∧
    (initReload (Except.ok ["corrupt"]) badLoad).ready = false ∧
    (initReload (Except.ok ["corrupt"]) badLoad).errorEvent ≠ none :=
  reload_fail_fast ["corrupt"] badLoad "corrupt" { msg := "bad JSON" }
    (by decide) rfl

/-- Claim C7: shutdown first pauses the queue; in every state reachable
while the drain runs, the queue stays paused, the pending records are
exactly those present at the shutdown call (none discarded), no dispatch
is possible, and the drain poll resolves only when the in-flight count is
zero. -/
theorem shutdown_drains_without_dispatch (c : Nat) (s s2 : QState)
    (h : Relation.ReflTransGen (QStep c) (shutdownStart s) s2) :
    s2.paused = true ∧ s2.pending = s.pending ∧
    canDispatch c s2 = false ∧
    (shutdownCanResolve s2 = true → s2.running = 0) := by
  have key : s2.paused = true ∧ s2.pending = s.pending := by
    induction h with
    | refl => exact ⟨rfl, rfl⟩
    | tail hsteps hstep ih =>
        cases hstep with
        | dispatch j rest hp hr hpend =>
            rw [ih.1] at hp
            simp at hp
        | complete n hr => exact ⟨ih.1, ih.2⟩
        | poll => exact ih
  refine ⟨key.1, key.2, ?_, ?_⟩
  · simp [canDispatch, key.1]
  · intro hres
    simpa [shutdownCanResolve] using hres

/-- Witness for C7 at a concrete input: calling shutdown on a running
queue holding one pending record pauses it, keeps the record pending,
forbids dispatch, and resolves only at zero in-flight executions. -/
theorem shutdown_drains_without_dispatch_witness :
    (shutdownStart { pending := [sampleJob], running := 0, paused := false }).paused
      = true ∧
    (shutdownStart { pending := [sampleJob], running := 0, paused := false }).pending
      = [sampleJob] ∧
    canDispatch 4
        (shutdownStart { pending := [sampleJob], running := 0, paused := false })
      = false ∧
    (shutdownCanResolve
        (shutdownStart { pending := [sampleJob], running := 0, paused := false })
      = true →
      (shutdownStart { pending := [sampleJob], running := 0, paused := false }).running
        = 0) :=
  shutdown_drains_without_dispatch 4
    { pending := [sampleJob], running := 0, paused := false }
    (shutdownStart { pending := [sampleJob], running := 0, paused := false })
    Relation.ReflTransGen.refl

/-- Counterexample for C8 as stated: pushing at time 20000 with an
explicitly supplied past scheduled time of 5 keeps that value — the record
is due at 5, already eligible at the push (5 is at or before 20000), not
held back to 20000 + 10000; a worker dispatching it at time 20000 invokes
the execution function at once. -/
theorem push_past_dueAt_eligible_now :
    (push defaultOptions 20000 7 "42" (some 5) none).job.options.scheduled = 5 ∧
    ¬ (20000 + 10000
        ≤ (push defaultOptions 20000 7 "42" (some 5) none).job.options.scheduled) ∧
    (push defaultOptions 20000 7 "42" (some 5) none).job.options.scheduled
      ≤ 20000 ∧
    WAction.invokeWorker
        { id := "42", payload := 7
        , options := { scheduled := 5, prettifyJSON := false }
        , attempts := 1, processing := true }
      ∈ worker defaultOptions 20000
          { id := "42", payload := 7
          , options := { scheduled := 5, prettifyJSON := false }
          , attempts := 0, processing := false } none none := by
  refine ⟨rfl, by decide, by decide, ?_⟩
  simp [worker]

/-- Claim C8 amended: when the caller supplies no scheduled time (or a
falsy one, 0), the new record's scheduled time defaults to now plus
10000 ms, so the job is not eligible before push returns; an explicitly
supplied nonzero scheduled time is kept unchanged — a past value is
therefore eligible as soon as it is dispatched and does not wait the
default delay (push itself never executes it, persistence and enqueue
come first). -/
theorem push_default_dueAt (opts : KewKewOptions) (now payload : Nat)
    (id : String) (pr : Option Err) :
    (push opts now payload id none pr).job.options.scheduled = now + 10000 ∧
    (push opts now payload id (some 0) pr).job.options.scheduled = now + 10000 ∧
    (∀ s, s ≠ 0 →
      (push opts now payload id (some s) pr).job.options.scheduled = s) ∧
    now < (push opts now payload id none pr).job.options.scheduled := by
  refine ⟨?_, ?_, ?_, ?_⟩
  · cases pr <;> simp [push, jsOr]
  · cases pr <;> simp [push, jsOr]
  · intro s hs
    cases pr <;> simp [push, jsOr, hs]
  · cases pr <;> simp [push, jsOr]

/-- Witness for the amended C8 at a concrete input: a push at time 1000
without a scheduled time yields a record due at 11000. -/
theorem push_default_dueAt_witness :
    (push defaultOptions 1000 7 "42" none none).job.options.scheduled
      = 1000 + 10000 :=
  (push_default_dueAt defaultOptions 1000 7 "42" none).1

/-- Claim C9: manual retry of a record whose processing flag is false
throws (the retry call reports no outcome: nothing is persisted, nothing
re-enqueued), and retry returns normally exactly for records currently in
flight. -/
theorem retry_unprocessed_throws (opts : KewKewOptions) (job : Job)
    (pr : Option Err) (h : job.processing = false) :
    retry opts job pr
      = Except.error "Cannot retry job because it is unprocessed" ∧
    retryRan (retry opts job pr) = false ∧
    (∀ job2 : Job, job2.processing = true →
      retryRan (retry opts job2 pr) = true) := by
  refine ⟨?_, ?_, ?_⟩
  · simp [retry, h]
  · simp [retry, h, retryRan]
  · intro job2 h2
    cases pr <;> simp [retry, h2, retryRan]

/-- Witness for C9 at a concrete input: sampleJob has processing = false,
so retrying it under default options throws the unprocessed error. -/
theorem retry_unprocessed_throws_witness :
    retry defaultOptions sampleJob none
      = Except.error "Cannot retry job because it is unprocessed" :=
  (retry_unprocessed_throws defaultOptions sampleJob none rfl).1

/-- Claim C10: every path that inserts a record into the scheduler —
push, recovery reload, the early-dispatch re-queue and retry — inserts it
with processing = false (enqueueJob resets the flag immediately before
insertion), and the records the worker persists and hands to the
execution function at dispatch carry processing = true. -/
theorem pending_records_not_processing (opts : KewKewOptions)
    (job : Job) (ts now payload : Nat) (id : String) (so : Option Nat)
    (pr we : Option Err) (files : List String)
    (load : String → Except Err Job) :
    (enqueueJob job).processing = false ∧
    (∀ jq, (push opts now payload id so pr).enqueued = some jq →
      jq.processing = false) ∧
    (∀ j2, j2 ∈ (initReload (Except.ok files) load).enqueued →
      j2.processing = false) ∧
    (∀ d j2, WAction.requeueAfter d j2 ∈ worker opts ts job pr we →
      j2.processing = false) ∧
    (∀ out jq, retry opts job pr = Except.ok out → out.enqueued = some jq →
      jq.processing = false) ∧
    (∀ j2, WAction.persistRec j2 ∈ worker opts ts job pr we →
      j2.processing = true) ∧
    (∀ j2, WAction.invokeWorker j2 ∈ worker opts ts job pr we →
      j2.processing = true) := by
  refine ⟨rfl, ?_, ?_, ?_, ?_, ?_, ?_⟩
  · intro jq hq
    cases pr with
    | some e => simp [push] at hq
    | none =>
        simp [push] at hq
        rw [← hq]
        rfl
  · intro j2 hmem
    cases hpar : asyncParallel load (filterDotFiles files) with
    | error e => simp [initReload, hpar] at hmem
    | ok js =>
        simp [initReload, hpar] at hmem
        rcases hmem with ⟨j0, hj0, hj2⟩
        rw [← hj2]
        rfl
  · intro d j2 hmem
    by_cases hd : ({ job with processing := true } : Job).options.scheduled ≤ ts
    · cases pr <;> simp [worker, hd] at hmem
    · simp [worker, hd] at hmem
      rw [hmem.2]
      rfl
  · intro out jq hout hq
    by_cases hp : job.processing
    · cases pr with
      | some e =>
          simp [retry, hp] at hout
          rw [← hout] at hq
          simp at hq
      | none =>
          simp [retry, hp] at hout
          rw [← hout] at hq
          simp at hq
          rw [← hq]
          rfl
    · simp [retry, hp] at hout
  · intro j2 hmem
    by_cases hd : ({ job with processing := true } : Job).options.scheduled ≤ ts
    · cases pr <;> simp [worker, hd] at hmem <;> rw [hmem]
    · simp [worker, hd] at hmem
  · intro j2 hmem
    by_cases hd : ({ job with processing := true } : Job).options.scheduled ≤ ts
    · cases pr with
      | some e => simp [worker, hd] at hmem
      | none =>
          simp [worker, hd] at hmem
          rw [hmem]
    · simp [worker, hd] at hmem

/-- Witness for C10 at a concrete input: enqueueJob on an in-flight copy
of sampleJob resets processing to false. -/
theorem pending_records_not_processing_witness :
    (enqueueJob { sampleJob with processing := true }).processing = false :=
  (pending_records_not_processing defaultOptions
    { sampleJob with processing := true } 0 0 0 "42" none none none [] badLoad).1

end KewKewSpec
